import Mathlib

/-!
Verification of the waterline-db2-adapter (src/index.js): a shallow
embedding of its query builders, type maps, error-recovery callbacks,
drop-orchestration and connection-acquisition behaviour, with theorems
settling the frozen claims about the adapter.
-/

namespace DB2Adapter

/-! Basic string machinery -/

/-- The single-quote character (code point 39), used to build SQL literals. -/
def sqc : Char := Char.ofNat 39

/-- The single-quote as a one-character string. -/
def sq : String := String.singleton sqc

/-- Core of JavaScript `String.prototype.replace` with a string pattern:
replace only the FIRST occurrence of `pat` in the character list. -/
def replaceFirstAux (pat rep : List Char) : List Char → List Char
  | [] => []
  | c :: cs =>
    if pat.isPrefixOf (c :: cs) then rep ++ (c :: cs).drop pat.length
    else c :: replaceFirstAux pat rep cs

/-- JavaScript `word.replace(pat, rep)` with string arguments: only the first
occurrence is replaced (an empty pattern matches at the start). -/
def jsReplaceFirst (s pat rep : String) : String :=
  if pat.data.isEmpty then rep ++ s
  else { data := replaceFirstAux pat.data rep.data s.data }

/-- `me.escape` (src/index.js:73-75): wrap in single quotes after a JS
`replace` of a quote by a doubled quote, which rewrites only the first
quote occurring in the value. -/
def escape (word : String) : String :=
  sq ++ jsReplaceFirst word sq (sq ++ sq) ++ sq

/-! Type mapper -/

/-- `me.typeMap` (src/index.js:77-109): native DB2 column type to abstract
attribute kind; lookup misses are `none` (JS `undefined`). -/
def typeMap (t : String) : Option String :=
  if t = "TIMESTMP" then some "time"
  else if t = "TIME" then some "time"
  else if t = "DATE" then some "date"
  else if t = "BINARY" then some "binary"
  else if t = "VARBINARY" then some "binary"
  else if t = "CHAR" then some "string"
  else if t = "VARCHAR" then some "string"
  else if t = "GRAPHIC" then some "string"
  else if t = "VARGRAPHIC" then some "string"
  else if t = "SMALLINT" then some "integer"
  else if t = "INTEGER" then some "integer"
  else if t = "BIGINT" then some "integer"
  else if t = "DECIMAL" then some "float"
  else if t = "DECFLOAT" then some "float"
  else if t = "REAL" then some "float"
  else if t = "DOUBLE" then some "float"
  else if t = "CLOB" then some "text"
  else if t = "BLOB" then some "text"
  else if t = "DBCLOB" then some "text"
  else if t = "XML" then some "text"
  else none

/-- `me.getSqlType` (src/index.js:111-139): abstract kind to canonical native
type; the switch assigns nothing for unknown kinds, so they yield `""`. -/
def getSqlType (attrType : String) : String :=
  if attrType = "string" then "VARCHAR"
  else if attrType = "integer" then "INTEGER"
  else if attrType = "float" then "DOUBLE"
  else if attrType = "text" then "BLOB"
  else if attrType = "binary" then "VARBINARY"
  else if attrType = "time" then "TIMESTMP"
  else if attrType = "date" then "DATE"
  else ""

/-! Data model: collections and attribute definitions -/

/-- One attribute of a collection definition; flags absent on the JS object
are falsy, modelled by `false` / `none` defaults. -/
structure AttrDef where
  type : String
  primaryKey : Bool := false
  autoIncrement : Bool := false
  length : Option Nat := none

/-- A registered collection: its table name and its attribute definition,
as an association list in JS-object iteration order. -/
structure Collection where
  tableName : String
  definition : List (String × AttrDef)

/-- JS `collection.definition.hasOwnProperty(column)`. -/
def hasCol (defn : List (String × AttrDef)) (c : String) : Bool :=
  defn.any (fun kv => kv.1 == c)

/-- JS `collection.definition[column]` guarded by `hasOwnProperty`. -/
def lookupAttr (defn : List (String × AttrDef)) (c : String) : Option AttrDef :=
  (defn.find? (fun kv => kv.1 == c)).map (fun kv => kv.2)

/-- `me.getSelectAttributes` (src/index.js:141-143): definition keys joined
with commas. -/
def getSelectAttributes (c : Collection) : String :=
  String.intercalate "," (c.definition.map (fun kv => kv.1))

/-! Find builder -/

/-- A JS value in the `options.limit` position: absent, a number, or a
string. -/
inductive JsLimit where
  | undef
  | num (n : Nat)
  | str (s : String)

/-- lodash `_.isEmpty`: `undefined` is empty, a NUMBER is always empty
(numbers have no enumerable properties or length), a string is empty
exactly when it has length zero. -/
def lodashIsEmpty : JsLimit → Bool
  | JsLimit.undef => true
  | JsLimit.num _ => true
  | JsLimit.str s => s.length == 0

/-- JS string coercion of the limit value, as used by `+` concatenation. -/
def limitToString : JsLimit → String
  | JsLimit.undef => "undefined"
  | JsLimit.num n => toString n
  | JsLimit.str s => s

/-- Waterline find/update/destroy options: where and sort maps in iteration
order, and the limit value. -/
structure FindOptions where
  whereOpt : List (String × String)
  sortOpt : List (String × String)
  limit : JsLimit

/-- The where-building loop of `__FIND__` (src/index.js:413-418): one pass
pushing both the `col = ?` fragment and the bound parameter, skipping
columns absent from the collection definition. -/
def findWhere (defn : List (String × AttrDef)) (w : List (String × String)) :
    List String × List String :=
  w.foldl (fun acc kv =>
    if hasCol defn kv.1 then (acc.1 ++ [kv.1 ++ " = ?"], acc.2 ++ [kv.2]) else acc) ([], [])

/-- `__FIND__` (src/index.js:401-434): the SQL text and bound parameter list
produced for a find call. -/
def findBuild (c : Collection) (opts : FindOptions) : String × List String :=
  let selectQuery := "SELECT " ++ getSelectAttributes c
  let fromQuery := " FROM " ++ c.tableName
  let wp := findWhere c.definition opts.whereOpt
  let whereJoined := String.intercalate " AND " wp.1
  let whereQuery := if whereJoined.length > 0 then " WHERE " ++ whereJoined else whereJoined
  let limitQuery :=
    if lodashIsEmpty opts.limit = false then
      " FETCH FIRST " ++ limitToString opts.limit ++ " ROWS ONLY "
    else ""
  let sortData := opts.sortOpt.foldl (fun acc kv =>
    if hasCol c.definition kv.1 then acc ++ [kv.1 ++ " " ++ kv.2] else acc) []
  let sortJoined := String.intercalate ", " sortData
  let sortQuery := if sortJoined.length > 0 then " ORDER BY " ++ sortJoined else sortJoined
  (selectQuery ++ fromQuery ++ whereQuery ++ sortQuery ++ limitQuery, wp.2)

/-! Create and update builders -/

/-- `__CREATE__` (src/index.js:460-476): the single round-trip INSERT
statement; values are inlined between raw single quotes with no escaping. -/
def createBuild (c : Collection) (values : List (String × String)) : String :=
  let cq := values.foldl (fun acc kv =>
    if hasCol c.definition kv.1 then (acc.1 ++ [kv.1], acc.2 ++ [sq ++ kv.2 ++ sq]) else acc)
    (([] : List String), ([] : List String))
  "SELECT " ++ getSelectAttributes c ++ " FROM FINAL TABLE (INSERT INTO " ++ c.tableName
    ++ " (" ++ String.intercalate "," cq.1 ++ ") VALUES (" ++ String.intercalate "," cq.2 ++ "))"

/-- The condition of the SET loop in `__UPDATE__` (src/index.js:514):
`hasOwnProperty(column) && !definition[column].autoIncrement`. -/
def updateKeep (defn : List (String × AttrDef)) (col : String) : Bool :=
  match lookupAttr defn col with
  | some a => !a.autoIncrement
  | none => false

/-- The SET-clause entries pushed by `__UPDATE__` (src/index.js:513-517):
raw single-quoted literals, one per kept column of the values map. -/
def updateSetData (defn : List (String × AttrDef)) (values : List (String × String)) :
    List String :=
  values.foldl (fun acc kv =>
    if updateKeep defn kv.1 then acc ++ [kv.1 ++ " = " ++ sq ++ kv.2 ++ sq] else acc) []

/-- The WHERE-clause entries pushed by `__UPDATE__` (src/index.js:520-524):
also raw single-quoted literals. -/
def updateWhereData (defn : List (String × AttrDef)) (w : List (String × String)) :
    List String :=
  w.foldl (fun acc kv =>
    if hasCol defn kv.1 then acc ++ [kv.1 ++ " = " ++ sq ++ kv.2 ++ sq] else acc) []

/-- `__UPDATE__` (src/index.js:503-529): the single round-trip UPDATE
statement. -/
def updateBuild (c : Collection) (optsWhere values : List (String × String)) : String :=
  let setQuery := " SET " ++ String.intercalate "," (updateSetData c.definition values)
  let whereJoined := String.intercalate " AND " (updateWhereData c.definition optsWhere)
  let whereQuery := if whereJoined.length > 0 then " WHERE " ++ whereJoined else whereJoined
  "SELECT " ++ getSelectAttributes c ++ " FROM FINAL TABLE (UPDATE " ++ c.tableName
    ++ setQuery ++ whereQuery ++ ")"

/-! Define builder -/

/-- JS `attribute.length || 255` (src/index.js:233): zero is falsy. -/
def jsLengthOr255 (len : Option Nat) : Nat :=
  match len with
  | some l => if l = 0 then 255 else l
  | none => 255

/-- One column clause of `define` (src/index.js:221-249): identity or string
primary keys get fixed shapes; other columns get the mapped native type
appended after a space (the default switch arm). -/
def defineColumnClause (attrName : String) (spec : AttrDef) : String :=
  let attrType := getSqlType spec.type
  if spec.primaryKey then
    if spec.autoIncrement then attrName ++ " INTEGER GENERATED ALWAYS AS IDENTITY PRIMARY KEY"
    else attrName ++ " VARCHAR(255) NOT NULL PRIMARY KEY"
  else if attrType = "VARCHAR" then
    attrName ++ " " ++ attrType ++ "(" ++ toString (jsLengthOr255 spec.length) ++ ")"
  else attrName ++ " " ++ attrType

/-- The CREATE TABLE statement built by `define` (src/index.js:217-252). -/
def defineQuery (collectionName : String) (definition : List (String × AttrDef)) : String :=
  let schemaData := definition.foldl (fun acc kv => acc ++ [defineColumnClause kv.1 kv.2]) []
  "CREATE TABLE " ++ collectionName ++ " " ++ ("(" ++ String.intercalate "," schemaData ++ ")")

/-! Driver results and error-recovery callbacks -/

/-- A driver error, carrying the SQL state code inspected by the adapter. -/
structure DB2Error where
  state : String
deriving DecidableEq

/-- The `define` completion callback (src/index.js:254-261): a
table-already-exists state is swallowed into an empty result, every other
error is passed to the caller unmodified. -/
def defineResult (r : Except DB2Error (List Nat)) : Except DB2Error (List Nat) :=
  match r with
  | Except.error e => if e.state = "42S01" then Except.ok [] else Except.error e
  | Except.ok rows => Except.ok rows

/-- `passCallback` in `drop` (src/index.js:327-333): a table-not-found state
is swallowed into an empty result, every other error passes unmodified. -/
def passCallbackResult (r : Except DB2Error (List Nat)) : Except DB2Error (List Nat) :=
  match r with
  | Except.error e => if e.state = "42S02" then Except.ok [] else Except.error e
  | Except.ok rows => Except.ok rows

/-- The `query` completion callback (src/index.js:365-368): errors and rows
both pass through unmodified. -/
def queryCallbackResult (r : Except DB2Error (List Nat)) : Except DB2Error (List Nat) :=
  match r with
  | Except.error e => Except.error e
  | Except.ok records => Except.ok records

/-- The `create` completion callback (src/index.js:474-475): errors pass
unmodified, success yields `results[0]`. -/
def createCallbackResult (r : Except DB2Error (List Nat)) : Except DB2Error (Option Nat) :=
  match r with
  | Except.error e => Except.error e
  | Except.ok results => Except.ok results.head?

/-- The `update` completion callback (src/index.js:532-533): same shape as
create. -/
def updateCallbackResult (r : Except DB2Error (List Nat)) : Except DB2Error (Option Nat) :=
  match r with
  | Except.error e => Except.error e
  | Except.ok results => Except.ok results.head?

/-- `find` and `destroy` hand the caller's callback directly to the driver
(src/index.js:434, 575): the identity on results. -/
def findCallbackResult (r : Except DB2Error (List Nat)) : Except DB2Error (List Nat) := r

/-- The whole of `define` against a deterministic driver: it issues its
CREATE TABLE statement exactly once (no retry) and filters the result. -/
def defineSim (driver : String → Except DB2Error (List Nat)) (collectionName : String)
    (definition : List (String × AttrDef)) : List String × Except DB2Error (List Nat) :=
  let q := defineQuery collectionName definition
  ([q], defineResult (driver q))

/-! Describe post-processing -/

/-- One row of the Sysibm.syscolumns catalog query (src/index.js:274). -/
structure CatalogRow where
  NAME : String
  COLTYPE : String
  IDENTITY : String
  KEYSEQ : Int
  NULLS : String

/-- An attribute reconstructed by `describe`; flags not assigned stay
absent (falsy), modelled by `false` defaults. -/
structure DescAttr where
  type : Option String
  primaryKey : Bool := false
  autoIncrement : Bool := false
  unique : Bool := false

/-- The per-row body of the `describe` loop (src/index.js:283-295). -/
def describeRowAttr (r : CatalogRow) : DescAttr :=
  if r.IDENTITY = "Y" ∧ r.KEYSEQ ≠ 0 ∧ r.NULLS = "N" ∧ typeMap r.COLTYPE.trim = some "integer" then
    { type := typeMap r.COLTYPE.trim, primaryKey := true, autoIncrement := true, unique := true }
  else { type := typeMap r.COLTYPE.trim }

/-- The `describe` completion callback (src/index.js:276-298): errors pass
through, zero rows yield `null`, otherwise the reconstructed attribute
map keyed by column name. -/
def describeResult (r : Except DB2Error (List CatalogRow)) :
    Except DB2Error (Option (List (String × DescAttr))) :=
  match r with
  | Except.error e => Except.error e
  | Except.ok attrs =>
    if attrs.length = 0 then Except.ok none
    else Except.ok (some (attrs.map (fun a => (a.NAME, describeRowAttr a))))

/-- The catalog query text built by `describe` (src/index.js:274). -/
def describeQuery (collectionName : String) : String :=
  "SELECT DISTINCT(NAME), COLTYPE, IDENTITY, KEYSEQ, NULLS FROM Sysibm.syscolumns WHERE tbname = "
    ++ escape collectionName

/-! Connection acquisition -/

/-- The external driver's observable state: the next fresh handle id, how
many opens happened, and which handles were closed. -/
structure DriverState where
  nextHandle : Nat
  openCount : Nat
  closedHandles : List Nat

/-- `db2.open` (and equally `pool.open`): hands back a fresh handle. -/
def db2open (ds : DriverState) : Nat × DriverState :=
  (ds.nextHandle,
   { nextHandle := ds.nextHandle + 1, openCount := ds.openCount + 1,
     closedHandles := ds.closedHandles })

/-- A registry entry (src/index.js:171-176): at most one cached handle. -/
structure RegisteredConnection where
  conn : Option Nat

/-- The `operationCallback` pattern shared by query/find/create/update/
destroy/drop (for example src/index.js:373-382): every call opens via the
driver and stores the new handle onto the registry entry; the cached
handle is never consulted before opening. -/
def operationAcquire (_rc : RegisteredConnection) (ds : DriverState) :
    Nat × RegisteredConnection × DriverState :=
  let p := db2open ds
  (p.1, { conn := some p.1 }, p.2)

/-- `teardown`'s `closeConnection` (src/index.js:192-197): close the stored
handle when one exists. -/
def teardownClose (rc : RegisteredConnection) (ds : DriverState) : DriverState :=
  match rc.conn with
  | some h =>
    { nextHandle := ds.nextHandle, openCount := ds.openCount,
      closedHandles := ds.closedHandles ++ [h] }
  | none => ds

/-- First operation issued against a fresh registry entry. -/
def c1FirstOp : Nat × RegisteredConnection × DriverState :=
  operationAcquire { conn := none } { nextHandle := 0, openCount := 0, closedHandles := [] }

/-- Second operation issued against the registry entry left by the first. -/
def c1SecondOp : Nat × RegisteredConnection × DriverState :=
  operationAcquire c1FirstOp.2.1 c1FirstOp.2.2

/-! Drop orchestration -/

/-- The two kinds of deferred continuations created by `__DROP__`
(src/index.js:318-341): the `next` callback of `async.eachSeries` carrying
the remaining relations, and `passCallback` awaiting a target-drop
result. -/
inductive DropTask where
  | eachNext (rest : List String)
  | passCb

/-- Process the queue of pending drop continuations in completion order
(driver completes queries in issuance order); each step may issue one
further statement. Fuel-indexed so it computes; the simulator below always
supplies sufficient fuel. Returns the statements issued during callback
processing and the final-callback outcomes, each in time order. -/
def dropRun (driver : String → Except DB2Error (List Nat)) (target : String) :
    Nat → List (DropTask × Except DB2Error (List Nat)) →
    List String × List (Except DB2Error (List Nat))
  | 0, _ => ([], [])
  | _ + 1, [] => ([], [])
  | fuel + 1, (DropTask.passCb, res) :: rest =>
    let r := dropRun driver target fuel rest
    (r.1, passCallbackResult res :: r.2)
  | fuel + 1, (DropTask.eachNext _, Except.error e) :: rest =>
    let r := dropRun driver target fuel rest
    (r.1, Except.error e :: r.2)
  | fuel + 1, (DropTask.eachNext [], Except.ok _) :: rest =>
    let stmt := "DROP TABLE " ++ target
    let r := dropRun driver target fuel (rest ++ [(DropTask.passCb, driver stmt)])
    (stmt :: r.1, r.2)
  | fuel + 1, (DropTask.eachNext (rel :: rels), Except.ok _) :: rest =>
    let stmt := "DROP TABLE " ++ rel
    let r := dropRun driver target fuel (rest ++ [(DropTask.eachNext rels, driver stmt)])
    (stmt :: r.1, r.2)

/-- `__DROP__` (src/index.js:318-341) against a deterministic driver: the
synchronous part starts `async.eachSeries` over the relations (issuing the
first relation's DROP, or with no relations running the final callback
which issues the target DROP) and then line 341 UNCONDITIONALLY issues a
second `DROP TABLE target` with `passCallback`. Returns all issued
statements and all caller-callback outcomes, in time order. -/
def dropSim (driver : String → Except DB2Error (List Nat)) (target : String)
    (relations : List String) : List String × List (Except DB2Error (List Nat)) :=
  match relations with
  | [] =>
    let s1 := "DROP TABLE " ++ target
    let s2 := "DROP TABLE " ++ target
    let r := dropRun driver target (relations.length + 4)
      [(DropTask.passCb, driver s1), (DropTask.passCb, driver s2)]
    (s1 :: s2 :: r.1, r.2)
  | rel :: rels =>
    let s1 := "DROP TABLE " ++ rel
    let s2 := "DROP TABLE " ++ target
    let r := dropRun driver target (relations.length + 4)
      [(DropTask.eachNext rels, driver s1), (DropTask.passCb, driver s2)]
    (s1 :: s2 :: r.1, r.2)

/-! Sample data for concrete evaluations -/

/-- A sample collection with an integer id and a string name. -/
def collT : Collection :=
  { tableName := "T",
    definition := [("id", { type := "integer" }), ("name", { type := "string" })] }

/-- Substring occurrence test on character lists, by sliding a prefix
check. -/
def listContainsSub (pat : List Char) : List Char → Bool
  | [] => pat.isEmpty
  | c :: cs => pat.isPrefixOf (c :: cs) || listContainsSub pat cs

/-- Substring occurrence test on strings. -/
def containsSub (s pat : String) : Bool := listContainsSub pat.data s.data

end DB2Adapter

namespace DB2Adapter

/-! Helper lemmas -/

/-- A fold that conditionally pushes one element is the filtered map. -/
theorem foldl_if_push1 {α β : Type} (p : α → Bool) (f : α → β) :
    ∀ (l : List α) (acc : List β),
      l.foldl (fun acc kv => if p kv then acc ++ [f kv] else acc) acc
        = acc ++ (l.filter p).map f
  | [], acc => by simp
  | x :: xs, acc => by
    cases h : p x <;>
      simp [List.foldl_cons, h, List.filter_cons, foldl_if_push1 p f xs, List.append_assoc]

/-- A fold that conditionally pushes into both components is the pair of
filtered maps. -/
theorem foldl_if_push2 {α β γ : Type} (p : α → Bool) (f : α → β) (g : α → γ) :
    ∀ (l : List α) (a : List β) (b : List γ),
      l.foldl (fun acc kv => if p kv then (acc.1 ++ [f kv], acc.2 ++ [g kv]) else acc) (a, b)
        = (a ++ (l.filter p).map f, b ++ (l.filter p).map g)
  | [], a, b => by simp
  | x :: xs, a, b => by
    cases h : p x <;>
      simp [List.foldl_cons, h, List.filter_cons, foldl_if_push2 p f g xs, List.append_assoc]

/-! Claim theorems -/

/-- C1 (counterexample): the claim says the handle opened by the first
operation is reused by the second operation on the same connection name
instead of opening a new one. On the code, the second operation opens a
fresh handle (id 1, distinct from the cached id 0) and the driver has seen
two opens, refuting the claim at this concrete two-operation run. -/
theorem conn_reuse_counterexample :
    c1FirstOp.1 = 0 ∧ c1FirstOp.2.1.conn = some 0
      ∧ c1SecondOp.1 = 1 ∧ c1SecondOp.1 ≠ c1FirstOp.1
      ∧ c1SecondOp.2.2.openCount = 2 := by decide

/-- C1 (amended): every public operation (query, find, create, update,
destroy, drop) unconditionally opens a new driver handle — the fresh
`nextHandle`, incrementing the open count — and stores it onto the
RegisteredConnection, overwriting any cached handle; operations close no
handles, and only teardown closes the handle currently stored. -/
theorem conn_open_per_operation (rc : RegisteredConnection) (ds : DriverState) (h : Nat) :
    (operationAcquire rc ds).1 = ds.nextHandle
    ∧ (operationAcquire rc ds).2.1.conn = some (operationAcquire rc ds).1
    ∧ (operationAcquire rc ds).2.2.openCount = ds.openCount + 1
    ∧ (operationAcquire rc ds).2.2.closedHandles = ds.closedHandles
    ∧ (teardownClose { conn := some h } ds).closedHandles = ds.closedHandles ++ [h]
    ∧ teardownClose { conn := none } ds = ds :=
  ⟨rfl, rfl, rfl, rfl, rfl, rfl⟩

/-- C2 (code bug): dropping `T` with relations `[A, B]` (all statements
succeeding) issues the trace `[DROP A, DROP T, DROP B, DROP T]` — the
target drop is issued twice, the first time before relation `B`'s drop,
and the caller's callback fires twice; with relation `A`'s drop failing,
the target drop is still issued (trace `[DROP A, DROP T]`) and the
callback fires twice, once with the error and once with success. The
claim (one target drop, after all relation drops, none after a failure)
is what the `async.eachSeries` path alone implements; the unconditional
duplicate target drop at src/index.js:341 breaks it. -/
theorem drop_target_issued_twice :
    dropSim (fun _ => Except.ok []) "T" ["A", "B"]
      = (["DROP TABLE A", "DROP TABLE T", "DROP TABLE B", "DROP TABLE T"],
         [Except.ok [], Except.ok []])
    ∧ dropSim (fun s => if s = "DROP TABLE A" then Except.error { state := "08001" }
          else Except.ok []) "T" ["A", "B"]
      = (["DROP TABLE A", "DROP TABLE T"],
         [Except.error { state := "08001" }, Except.ok []]) :=
  ⟨rfl, rfl⟩

/-- C3 (code bug): a find with the positive numeric limit 5 produces SQL
with NO FETCH clause, because lodash `_.isEmpty` is true on every number,
so the guard `!_.isEmpty(options.limit)` never fires for numeric limits;
the FETCH-building code is reachable only for non-number limits (shown
with a string limit). The claim (numeric limit n ⇒ `FETCH FIRST n ROWS
ONLY`) describes the evident intent of src/index.js:406. -/
theorem find_numeric_limit_no_fetch :
    (findBuild collT { whereOpt := [], sortOpt := [], limit := JsLimit.num 5 }).1
      = "SELECT id,name FROM T"
    ∧ containsSub
        (findBuild collT { whereOpt := [], sortOpt := [], limit := JsLimit.num 5 }).1
        "FETCH" = false
    ∧ lodashIsEmpty (JsLimit.num 5) = true
    ∧ (findBuild collT { whereOpt := [], sortOpt := [], limit := JsLimit.str "5" }).1
      = "SELECT id,name FROM T FETCH FIRST 5 ROWS ONLY " :=
  ⟨rfl, rfl, rfl, rfl⟩

/-- C4 (code bug): create and update inline values between raw single
quotes with NO escaping (src/index.js:469, 515 never call `escape`), so a
value containing a single quote yields an unescaped quote inside the
emitted literal; and even `escape` itself doubles only the FIRST quote,
since JS `replace` with a string pattern replaces one occurrence. The
claim (every inner quote doubled) fails on both counts. -/
theorem create_update_literals_unescaped :
    createBuild collT [("name", "O" ++ sq ++ "Brien")]
      = "SELECT id,name FROM FINAL TABLE (INSERT INTO T (name) VALUES ("
          ++ sq ++ "O" ++ sq ++ "Brien" ++ sq ++ "))"
    ∧ updateBuild collT [] [("name", "O" ++ sq ++ "Brien")]
      = "SELECT id,name FROM FINAL TABLE (UPDATE T SET name = "
          ++ sq ++ "O" ++ sq ++ "Brien" ++ sq ++ ")"
    ∧ escape ("a" ++ sq ++ "b" ++ sq ++ "c")
      = sq ++ "a" ++ sq ++ sq ++ "b" ++ sq ++ "c" ++ sq :=
  ⟨rfl, rfl, rfl⟩

/-- C5: on define, exactly the table-already-exists state 42S01 is
swallowed into an empty-result success; on drop's passCallback, exactly
the table-not-found state 42S02 is; every other driver error from any
operation callback (query, create, update, find/destroy) is passed to the
caller unmodified; and define issues its statement exactly once whatever
the driver answers (no retry). -/
theorem error_recovery_policy (e : DB2Error) (rows : List Nat)
    (driver : String → Except DB2Error (List Nat)) (n : String)
    (d : List (String × AttrDef)) :
    defineResult (Except.error e)
      = (if e.state = "42S01" then Except.ok [] else Except.error e)
    ∧ defineResult (Except.ok rows) = Except.ok rows
    ∧ passCallbackResult (Except.error e)
      = (if e.state = "42S02" then Except.ok [] else Except.error e)
    ∧ passCallbackResult (Except.ok rows) = Except.ok rows
    ∧ queryCallbackResult (Except.error e) = Except.error e
    ∧ createCallbackResult (Except.error e) = Except.error e
    ∧ updateCallbackResult (Except.error e) = Except.error e
    ∧ findCallbackResult (Except.error e) = Except.error e
    ∧ (defineSim driver n d).1 = [defineQuery n d] :=
  ⟨rfl, rfl, rfl, rfl, rfl, rfl, rfl, rfl, rfl⟩

/-- C6: the find where-loop keeps exactly the where entries whose column
is in the collection definition — the `col = ?` fragments and the bound
parameters are the filtered map, so parameters are the values of the
known columns in iteration order — and a find with empty where, sort and
limit options builds plain `SELECT cols FROM table` with no WHERE, ORDER
BY or FETCH clause and no parameters. -/
theorem find_where_filtering (defn : List (String × AttrDef))
    (w : List (String × String)) (c : Collection) :
    (findWhere defn w).1
      = ((w.filter (fun kv => hasCol defn kv.1)).map (fun kv => kv.1 ++ " = ?"))
    ∧ (findWhere defn w).2
      = ((w.filter (fun kv => hasCol defn kv.1)).map (fun kv => kv.2))
    ∧ (findBuild c { whereOpt := [], sortOpt := [], limit := JsLimit.undef }).1
      = ("SELECT " ++ getSelectAttributes c) ++ (" FROM " ++ c.tableName)
    ∧ (findBuild c { whereOpt := [], sortOpt := [], limit := JsLimit.undef }).2 = [] := by
  have h := foldl_if_push2 (fun kv : String × String => hasCol defn kv.1)
    (fun kv => kv.1 ++ " = ?") (fun kv => kv.2) w [] []
  simp only [List.nil_append] at h
  refine ⟨congrArg Prod.fst h, congrArg Prod.snd h, ?_, rfl⟩
  show ("SELECT " ++ getSelectAttributes c) ++ (" FROM " ++ c.tableName) ++ "" ++ "" ++ ""
      = ("SELECT " ++ getSelectAttributes c) ++ (" FROM " ++ c.tableName)
  simp [String.append_empty]

/-- C7: each of the seven abstract kinds round-trips through its canonical
native type and back, and several native types collapse onto the integer
kind (SMALLINT, INTEGER, BIGINT); the native-to-abstract table is a
function, so each native type maps to at most one kind. -/
theorem native_abstract_type_roundtrip :
    typeMap (getSqlType "string") = some "string"
    ∧ typeMap (getSqlType "integer") = some "integer"
    ∧ typeMap (getSqlType "float") = some "float"
    ∧ typeMap (getSqlType "text") = some "text"
    ∧ typeMap (getSqlType "binary") = some "binary"
    ∧ typeMap (getSqlType "time") = some "time"
    ∧ typeMap (getSqlType "date") = some "date"
    ∧ typeMap "SMALLINT" = some "integer"
    ∧ typeMap "INTEGER" = some "integer"
    ∧ typeMap "BIGINT" = some "integer" := by decide

/-- C8: the SET entries built by update are exactly the values entries
whose column is in the definition and not flagged autoIncrement, in
iteration order — so an autoIncrement column never appears in the SET
clause even when present in the values map, and every other defined
column present does — where the keep-condition holds exactly when the
column's attribute exists with autoIncrement false. -/
theorem update_set_excludes_autoincrement (defn : List (String × AttrDef))
    (values : List (String × String)) :
    updateSetData defn values
      = ((values.filter (fun kv => updateKeep defn kv.1)).map
          (fun kv => kv.1 ++ " = " ++ sq ++ kv.2 ++ sq))
    ∧ (∀ col : String,
        updateKeep defn col = true
          ↔ ∃ a, lookupAttr defn col = some a ∧ a.autoIncrement = false) := by
  constructor
  · have h := foldl_if_push1 (fun kv : String × String => updateKeep defn kv.1)
      (fun kv : String × String => kv.1 ++ " = " ++ sq ++ kv.2 ++ sq) values []
    simp only [List.nil_append] at h
    exact h
  · intro col
    rcases h : lookupAttr defn col with _ | a
    · simp [updateKeep, h]
    · simp [updateKeep, h]

/-- C9: describe yields null exactly when the catalog query returned zero
rows, and a reconstructed column carries the primaryKey, autoIncrement
and unique flags exactly when its identity flag is Y, its key sequence is
nonzero, its nullability is N and its trimmed native type maps to the
integer kind. -/
theorem describe_null_and_identity_flags (rows : List CatalogRow) (r : CatalogRow) :
    (describeResult (Except.ok rows) = Except.ok none ↔ rows = [])
    ∧ (((describeRowAttr r).primaryKey = true ∧ (describeRowAttr r).autoIncrement = true
          ∧ (describeRowAttr r).unique = true)
        ↔ (r.IDENTITY = "Y" ∧ r.KEYSEQ ≠ 0 ∧ r.NULLS = "N"
            ∧ typeMap r.COLTYPE.trim = some "integer")) := by
  constructor
  · by_cases h : rows.length = 0
    · have he : rows = [] := List.length_eq_zero.mp h
      subst he
      simp [describeResult]
    · have hne : rows ≠ [] := by
        intro he
        subst he
        simp at h
      simp [describeResult, h, hne]
  · by_cases hc : (r.IDENTITY = "Y" ∧ r.KEYSEQ ≠ 0 ∧ r.NULLS = "N"
        ∧ typeMap r.COLTYPE.trim = some "integer")
    · simp [describeRowAttr, hc]
    · simp [describeRowAttr, hc]

/-- C10: an attribute whose declared type is outside the seven known kinds
and that is not a primary key maps to the empty native type, and its
column clause in the CREATE TABLE statement is the attribute name
followed by a single space with no type keyword. -/
theorem unknown_type_empty_column_clause (attrName t : String) (len : Option Nat)
    (ai : Bool)
    (h : t ∉ ["string", "integer", "float", "text", "binary", "time", "date"]) :
    getSqlType t = ""
    ∧ defineColumnClause attrName
        { type := t, primaryKey := false, autoIncrement := ai, length := len }
      = attrName ++ " " := by
  simp only [List.mem_cons, List.not_mem_nil, or_false, not_or] at h
  obtain ⟨h1, h2, h3, h4, h5, h6, h7⟩ := h
  constructor
  · simp [getSqlType, h1, h2, h3, h4, h5, h6, h7]
  · simp [defineColumnClause, getSqlType, h1, h2, h3, h4, h5, h6, h7, String.append_empty]

/-- Witness for C10 at the concrete unknown kind `json`. -/
theorem unknown_type_empty_column_clause_witness :
    ("json" ∉ ["string", "integer", "float", "text", "binary", "time", "date"])
    ∧ (getSqlType "json" = ""
        ∧ defineColumnClause "payload"
            { type := "json", primaryKey := false, autoIncrement := false, length := none }
          = "payload" ++ " ") :=
  ⟨by decide, unknown_type_empty_column_clause "payload" "json" none false (by decide)⟩

end DB2Adapter
